import Mathlib

/-!
Shallow embedding of the SSE chat-streaming consumers of this repository.

The repository contains three copies of the same line-oriented decoding loop:
  * test_cli.py, APITester.send_message_streaming  (lines 83-141)
  * tests/test_streaming.py, test_streaming_with_real_content (lines 38-108)
  * 8505-viewer/streamlit.py, the chat handler inside main (lines 1148-1197)

Each loop iterates over response.iter_lines(), skips falsy lines, keeps lines
starting with the prefix "data: ", runs json.loads on the rest of the line,
and dispatches on the "type" field of the decoded payload.  The embedding
models one line of input as the outcome of that classification (blank line,
line without the prefix, line whose payload fails to parse, or a parsed JSON
value), and models each loop as a recursive function over the list of lines.
Machine-level concerns (bytes vs str, chunked reads) do not affect the
dispatch and are abstracted away; json.loads itself is an external library
call, kept as an explicit parameter where a claim mentions the prefix check.
-/

/-- A JSON value, as produced by the json.loads library call on the payload
part of a "data: " line. -/
inductive JsonVal where
  | null : JsonVal
  | bool (b : Bool) : JsonVal
  | num (n : Int) : JsonVal
  | str (s : String) : JsonVal
  | arr (elems : List JsonVal) : JsonVal
  | obj (fields : List (String × JsonVal)) : JsonVal

/-- One line yielded by response.iter_lines(), after the classification that
every loop in the repository performs on it: `blank` is a falsy line (skipped
by the `if line:` guard), `other` is a non-empty line that does not start with
the prefix "data: " (never handled), and `data p` is a line that starts with
the prefix, where `p` records whether json.loads succeeded on the payload. -/
inductive PayloadParse where
  | malformed : PayloadParse
  | json (v : JsonVal) : PayloadParse

inductive Line where
  | blank : Line
  | other (s : String) : Line
  | data (p : PayloadParse) : Line

/-- The classification applied to a raw line of the body, as written in the
source: the falsy check, the startswith check on the prefix "data: ", and
json.loads applied to line[6:].  jsonLoads is the external library parse,
passed explicitly; none stands for a raised json.JSONDecodeError. -/
def classifyLine (jsonLoads : String → Option JsonVal) (line : String) : Line :=
  if line.isEmpty then Line.blank
  else if "data: ".isPrefixOf line then
    match jsonLoads (line.drop 6) with
    | none => Line.data PayloadParse.malformed
    | some v => Line.data (PayloadParse.json v)
  else Line.other line

/-- A stream event, in the sense of the spec: the trace entry recorded when a
loop body recognizes a content, done or error payload. -/
inductive Ev where
  | content (s : String) : Ev
  | done : Ev
  | error (emsg : Option JsonVal) : Ev

/-- What one iteration of the test_cli.py / test_streaming.py loop body does
with a line.  This is a direct transcription of the dispatch:
  * a falsy line or a line without the prefix is never examined;
  * a json.JSONDecodeError is caught, a warning printed, and the loop
    continues;
  * data["type"] raises an uncaught TypeError when the payload is not a dict
    and an uncaught KeyError when the key "type" is absent;
  * type "content" reads data.get("content", ""), which defaults to "" when
    the field is absent; appending a non-string value to full_response would
    raise an uncaught TypeError;
  * type "done" and type "error" stop the loop; any other type value falls
    through every elif branch and is ignored. -/
inductive LineAct where
  | skip : LineAct
  | skipMalformed : LineAct
  | append (s : String) : LineAct
  | stopDone : LineAct
  | stopError (emsg : Option JsonVal) : LineAct
  | raiseExc : LineAct

/-- Python equality between an arbitrary value and a string literal, as used
in the dispatch data["type"] == "content": true exactly when the value is
that string; a non-string value compared to a string is False. -/
def jsonEqStr : JsonVal → String → Bool
  | JsonVal.str s, t => s == t
  | _, _ => false

def lineAction : Line → LineAct
  | Line.blank => LineAct.skip
  | Line.other _ => LineAct.skip
  | Line.data PayloadParse.malformed => LineAct.skipMalformed
  | Line.data (PayloadParse.json (JsonVal.obj fields)) =>
    match List.lookup "type" fields with
    | none => LineAct.raiseExc
    | some tv =>
      if jsonEqStr tv "content" then
        match List.lookup "content" fields with
        | none => LineAct.append ""
        | some (JsonVal.str s) => LineAct.append s
        | some _ => LineAct.raiseExc
      else if jsonEqStr tv "done" then LineAct.stopDone
      else if jsonEqStr tv "error" then LineAct.stopError (List.lookup "error" fields)
      else LineAct.skip
  | Line.data (PayloadParse.json _) => LineAct.raiseExc

/-- Result of running the decode loop of send_message_streaming over a list
of lines.  Each constructor records the value of the accumulator
full_response at that point, the number of malformed-payload warnings printed
so far, the trace of recognized events, and, when the loop stops early, the
lines that were never read. -/
inductive LoopResult where
  | finished (text : String) (warnings : Nat) (events : List Ev) : LoopResult
  | doneAt (text : String) (warnings : Nat) (events : List Ev) (rest : List Line) : LoopResult
  | errorAt (text : String) (warnings : Nat) (events : List Ev) (emsg : Option JsonVal)
      (rest : List Line) : LoopResult
  | exceptionAt (text : String) (warnings : Nat) (events : List Ev) (rest : List Line) : LoopResult

/-- The decode loop of send_message_streaming in test_cli.py (lines 111-134),
also the loop of test_streaming.py (lines 56-96): for line in
response.iter_lines(), dispatching as in lineAction. -/
def processLines : List Line → String → Nat → List Ev → LoopResult
  | [], acc, w, evs => LoopResult.finished acc w evs
  | l :: rest, acc, w, evs =>
    match lineAction l with
    | LineAct.skip => processLines rest acc w evs
    | LineAct.skipMalformed => processLines rest acc (w + 1) evs
    | LineAct.append s => processLines rest (acc ++ s) w (evs ++ [Ev.content s])
    | LineAct.stopDone => LoopResult.doneAt acc w (evs ++ [Ev.done]) rest
    | LineAct.stopError m => LoopResult.errorAt acc w (evs ++ [Ev.error m]) m rest
    | LineAct.raiseExc => LoopResult.exceptionAt acc w evs rest

/-- The transport seen by one call: either requests.post raises before any
byte of the body is read (timeout, connection refused, DNS failure), or it
returns a status code together with the lines of the body. -/
inductive Transport where
  | connFail : Transport
  | resp (status : Nat) (body : List Line) : Transport

/-- Which exit path of send_message_streaming was taken.  The constructors
correspond one-to-one to the return statements of the source. -/
inductive Termination where
  | noActiveSession : Termination
  | httpError (status : Nat) : Termination
  | connectionFailure : Termination
  | doneOk : Termination
  | remoteError (emsg : Option JsonVal) : Termination
  | streamEndedNoDone : Termination
  | loopException : Termination

/-- Observable outcome of one call to send_message_streaming: how many times
requests.post was invoked, the boolean return value, the value of the
accumulator full_response when the call returned (its content is printed
incrementally as it accumulates), the number of malformed-payload warnings
printed, the trace of recognized stream events, and the exit path taken. -/
structure SendResult where
  networkCalls : Nat
  success : Bool
  fullResponse : String
  malformedWarnings : Nat
  events : List Ev
  termination : Termination

/-- The falsiness test that the guard `if not self.current_session_id`
performs on an Optional string: None and the empty string are falsy. -/
def falsyOpt : Option String → Bool
  | none => true
  | some s => s.isEmpty

/-- The four return paths reachable once the loop has run, one per return
statement of the source: on loop exhaustion the source prints a warning and
returns len(full_response) > 0; on a done payload it returns True; on an
error payload it prints data.get("error") and returns False; an exception
escaping the loop is caught by the outer except handler, which returns
False. -/
def foldOutcome : LoopResult → SendResult
  | LoopResult.finished acc w evs =>
    { networkCalls := 1, success := decide (0 < acc.length), fullResponse := acc,
      malformedWarnings := w, events := evs,
      termination := Termination.streamEndedNoDone }
  | LoopResult.doneAt acc w evs _ =>
    { networkCalls := 1, success := true, fullResponse := acc,
      malformedWarnings := w, events := evs, termination := Termination.doneOk }
  | LoopResult.errorAt acc w evs m _ =>
    { networkCalls := 1, success := false, fullResponse := acc,
      malformedWarnings := w, events := evs, termination := Termination.remoteError m }
  | LoopResult.exceptionAt acc w evs _ =>
    { networkCalls := 1, success := false, fullResponse := acc,
      malformedWarnings := w, events := evs, termination := Termination.loopException }

/-- APITester.send_message_streaming of test_cli.py (lines 83-141).
currentSessionId is self.current_session_id (an Optional string); the guard
`if not self.current_session_id` rejects both None and the empty string
before requests.post is reached.  After a 200 response the loop runs; on
exhaustion the source prints a warning and returns len(full_response) > 0;
on a done payload it returns True; on an error payload it prints
data.get("error") and returns False; an exception escaping the loop is
caught by the outer handler, which returns False.  The message argument is
only placed in the request body and never influences control flow. -/
def send_message_streaming (message : String) (currentSessionId : Option String)
    (t : Transport) : SendResult :=
  if falsyOpt currentSessionId then
    { networkCalls := 0, success := false, fullResponse := "", malformedWarnings := 0,
      events := [], termination := Termination.noActiveSession }
  else
    match t with
    | Transport.connFail =>
      { networkCalls := 1, success := false, fullResponse := "", malformedWarnings := 0,
        events := [], termination := Termination.connectionFailure }
    | Transport.resp status body =>
      if status ≠ 200 then
        { networkCalls := 1, success := false, fullResponse := "", malformedWarnings := 0,
          events := [], termination := Termination.httpError status }
      else
        foldOutcome (processLines body "" 0 [])

/-- The state of an APITester object, as read and written by
send_message_streaming.  The method body of send_message_streaming contains
no assignment to self, so its embedding returns the state unchanged; this is
what the method actually does, not an assumption. -/
structure APITester where
  current_session_id : Option String

def send_message_streaming_method (self : APITester) (message : String)
    (t : Transport) : SendResult × APITester :=
  (send_message_streaming message self.current_session_id t, self)

/-- Result of the chat decoding loop in 8505-viewer/streamlit.py (lines
1164-1176): the loop has no branch for type error and prints no warning on a
malformed payload; it breaks on done, and any exception escapes to the outer
handler of the button callback. -/
inductive StreamlitResult where
  | ended (text : String) : StreamlitResult
  | doneBreak (text : String) (rest : List Line) : StreamlitResult
  | exc (text : String) (rest : List Line) : StreamlitResult

def streamlitChatLoop : List Line → String → StreamlitResult
  | [], acc => StreamlitResult.ended acc
  | l :: rest, acc =>
    match l with
    | Line.blank => streamlitChatLoop rest acc
    | Line.other _ => streamlitChatLoop rest acc
    | Line.data PayloadParse.malformed => streamlitChatLoop rest acc
    | Line.data (PayloadParse.json (JsonVal.obj fields)) =>
      match List.lookup "type" fields with
      | none => StreamlitResult.exc acc rest
      | some tv =>
        if jsonEqStr tv "content" then
          match List.lookup "content" fields with
          | none => streamlitChatLoop rest (acc ++ "")
          | some (JsonVal.str s) => streamlitChatLoop rest (acc ++ s)
          | some _ => StreamlitResult.exc acc rest
        else if jsonEqStr tv "done" then StreamlitResult.doneBreak acc rest
        else streamlitChatLoop rest acc
    | Line.data (PayloadParse.json _) => StreamlitResult.exc acc rest

/-- Concatenation of a list of content fragments in arrival order. -/
def concatAll : List String → String
  | [] => ""
  | s :: rest => s ++ concatAll rest

/-- The line carrying a well-formed content event with fragment s. -/
def contentLine (s : String) : Line :=
  Line.data (PayloadParse.json (JsonVal.obj
    [("type", JsonVal.str "content"), ("content", JsonVal.str s)]))

/-- The line carrying a well-formed done event. -/
def doneLine : Line :=
  Line.data (PayloadParse.json (JsonVal.obj [("type", JsonVal.str "done")]))

/-- The line carrying a well-formed error event whose error field is emsg. -/
def errorLine (emsg : JsonVal) : Line :=
  Line.data (PayloadParse.json (JsonVal.obj
    [("type", JsonVal.str "error"), ("error", emsg)]))

/-- A line whose payload is a JSON object carrying only a type discriminator
tv (used for unrecognized event kinds). -/
def typedLine (tv : JsonVal) : Line :=
  Line.data (PayloadParse.json (JsonVal.obj [("type", tv)]))

example : lineAction (contentLine "ab") = LineAct.append "ab" := rfl
example : lineAction doneLine = LineAct.stopDone := rfl
example : lineAction (errorLine (JsonVal.str "boom"))
    = LineAct.stopError (some (JsonVal.str "boom")) := rfl
example : lineAction (typedLine (JsonVal.str "ping")) = LineAct.skip := rfl
example : lineAction (Line.data (PayloadParse.json (JsonVal.obj [])))
    = LineAct.raiseExc := rfl
example : lineAction (Line.data (PayloadParse.json (JsonVal.num 42)))
    = LineAct.raiseExc := rfl

/-- Whether a JSON value is an object, that is a Python dict after
json.loads; item access raises TypeError on every other value. -/
def isObj : JsonVal → Bool
  | JsonVal.obj _ => true
  | _ => false

/-- The verdict of test_streaming_with_real_content in tests/test_streaming.py
(lines 56-104), as a fold of the loop result: its loop is the one modelled by
processLines, but the done branch returns True only when more than 10
characters accumulated (lines 81-88), the error branch returns False, loop
exhaustion returns len(full_response) > 10 (lines 98-104), and an exception
escaping the loop is caught by the outer handler, which returns False. -/
def test_streaming_verdict : LoopResult → Bool
  | LoopResult.finished acc _ _ => decide (10 < acc.length)
  | LoopResult.doneAt acc _ _ _ => decide (10 < acc.length)
  | LoopResult.errorAt _ _ _ _ _ => false
  | LoopResult.exceptionAt _ _ _ _ => false

/-- Python str.strip() with no argument: leading and trailing whitespace
removed, written structurally over the character list so that it
evaluates. -/
def pyStrip (s : String) : String :=
  String.mk (((s.data.dropWhile Char.isWhitespace).reverse.dropWhile Char.isWhitespace).reverse)

/-- The loop of test_quick_response in tests/test_streaming.py (lines
151-170): the same dispatch as the other loops but with branches only for
type content and type done, so an event of type error falls through the
elif chain and is ignored like any other unrecognized type.  The done branch
returns len(full_response.strip()) > 0 directly; loop exhaustion returns
False (line 170); a payload without a type key, a non-object payload, or a
non-string content value raises an uncaught exception, caught by the outer
handler, which returns False. -/
def test_quick_response_loop : List Line → String → Bool
  | [], _ => false
  | l :: rest, acc =>
    match l with
    | Line.blank => test_quick_response_loop rest acc
    | Line.other _ => test_quick_response_loop rest acc
    | Line.data PayloadParse.malformed => test_quick_response_loop rest acc
    | Line.data (PayloadParse.json (JsonVal.obj fields)) =>
      match List.lookup "type" fields with
      | none => false
      | some tv =>
        if jsonEqStr tv "content" then
          match List.lookup "content" fields with
          | none => test_quick_response_loop rest (acc ++ "")
          | some (JsonVal.str s) => test_quick_response_loop rest (acc ++ s)
          | some _ => false
        else if jsonEqStr tv "done" then decide (0 < (pyStrip acc).length)
        else test_quick_response_loop rest acc
    | Line.data (PayloadParse.json _) => false

theorem processLines_blank_step (rest : List Line) (acc : String) (w : Nat) (evs : List Ev) :
    processLines (Line.blank :: rest) acc w evs = processLines rest acc w evs := rfl

theorem processLines_other_step (s : String) (rest : List Line) (acc : String)
    (w : Nat) (evs : List Ev) :
    processLines (Line.other s :: rest) acc w evs = processLines rest acc w evs := rfl

theorem processLines_content_step (s : String) (rest : List Line) (acc : String)
    (w : Nat) (evs : List Ev) :
    processLines (contentLine s :: rest) acc w evs
      = processLines rest (acc ++ s) w (evs ++ [Ev.content s]) := rfl

theorem processLines_done_step (rest : List Line) (acc : String) (w : Nat) (evs : List Ev) :
    processLines (doneLine :: rest) acc w evs
      = LoopResult.doneAt acc w (evs ++ [Ev.done]) rest := rfl

theorem processLines_error_step (emsg : JsonVal) (rest : List Line) (acc : String)
    (w : Nat) (evs : List Ev) :
    processLines (errorLine emsg :: rest) acc w evs
      = LoopResult.errorAt acc w (evs ++ [Ev.error (some emsg)]) (some emsg) rest := rfl

theorem processLines_malformed_step (rest : List Line) (acc : String) (w : Nat) (evs : List Ev) :
    processLines (Line.data PayloadParse.malformed :: rest) acc w evs
      = processLines rest acc (w + 1) evs := rfl

/-- Running the loop over a block of well-formed content lines appends the
concatenation of the fragments to the accumulator and records one content
event per fragment, then continues with the remaining lines. -/
theorem processLines_contents (frags : List String) (tail : List Line)
    (acc : String) (w : Nat) (evs : List Ev) :
    processLines (frags.map contentLine ++ tail) acc w evs
      = processLines tail (acc ++ concatAll frags) w (evs ++ frags.map Ev.content) := by
  induction frags generalizing acc evs with
  | nil => simp [concatAll]
  | cons a l ih =>
    rw [List.map_cons, List.cons_append, processLines_content_step, ih]
    simp [concatAll, String.append_assoc]

/-- Running the quick-response loop over a block of well-formed content
lines appends the concatenation of the fragments to the accumulator and
continues with the remaining lines. -/
theorem test_quick_response_contents (frags : List String) (tail : List Line) (acc : String) :
    test_quick_response_loop (frags.map contentLine ++ tail) acc
      = test_quick_response_loop tail (acc ++ concatAll frags) := by
  induction frags generalizing acc with
  | nil => simp [concatAll]
  | cons a l ih =>
    rw [List.map_cons, List.cons_append]
    rw [show test_quick_response_loop (contentLine a :: (l.map contentLine ++ tail)) acc
        = test_quick_response_loop (l.map contentLine ++ tail) (acc ++ a) from rfl, ih]
    simp [concatAll, String.append_assoc]

theorem falsyOpt_sess : falsyOpt (some "sess") = false := rfl

/-- With a live session and a 200 response, the call is exactly the fold of
the decode loop over the body. -/
theorem send_unfold_sess200 (message : String) (body : List Line) :
    send_message_streaming message (some "sess") (Transport.resp 200 body)
      = foldOutcome (processLines body "" 0 []) := rfl

theorem foldOutcome_networkCalls (r : LoopResult) : (foldOutcome r).networkCalls = 1 := by
  cases r <;> rfl

/-- A non-200 status short-circuits the call before any line of the body is
decoded. -/
theorem send_notFalsy_httpError (message sid : String) (hsid : sid.isEmpty = false)
    (status : Nat) (hst : status ≠ 200) (body : List Line) :
    send_message_streaming message (some sid) (Transport.resp status body)
      = { networkCalls := 1, success := false, fullResponse := "", malformedWarnings := 0,
          events := [], termination := Termination.httpError status } := by
  unfold send_message_streaming
  simp [falsyOpt, hsid, hst]

/-- With a live session, every call issues exactly one network call, whatever
the transport returns. -/
theorem send_sess_networkCalls (message : String) (t : Transport) :
    (send_message_streaming message (some "sess") t).networkCalls = 1 := by
  cases t with
  | connFail => rfl
  | resp status body =>
    by_cases h : status = 200
    · subst h
      rw [send_unfold_sess200]
      exact foldOutcome_networkCalls _
    · rw [send_notFalsy_httpError message "sess" rfl status h body]

/-- Claim C1 (code bug witness): the source treats a stream whose transport
closes without any terminal event as a success whenever text was
accumulated.  Evaluating send_message_streaming on a 200 response whose body
is a single content event and nothing else shows the streamEndedNoDone exit
path returning True, because the source returns len(full_response) > 0
there; the truncation failure required by the claim does not exist in the
code (test_streaming.py likewise returns True on this path when more than 10
characters arrived). -/
theorem C1_truncated_stream_reported_as_success :
    send_message_streaming "hi" (some "sess") (Transport.resp 200 [contentLine "hello"])
      = { networkCalls := 1, success := true, fullResponse := "hello", malformedWarnings := 0,
          events := [Ev.content "hello"], termination := Termination.streamEndedNoDone } := rfl

/-- Claim C2 counterexample: at N = 0 the cited consumers report failure on
a well-formed done-terminated stream.  test_streaming_with_real_content
gates its done branch on more than 10 accumulated characters and
test_quick_response on a non-empty stripped text, so both return False on
the stream consisting of a single done event and no content, where the
claim requires success = true for every N including N = 0. -/
theorem C2_counterexample_empty_done_stream :
    test_streaming_verdict (processLines [doneLine] "" 0 []) = false
    ∧ test_quick_response_loop [doneLine] "" = false :=
  ⟨rfl, rfl⟩

/-- Claim C2 (amended): for every well-formed stream of N content events
followed by one done event, the decode loop stops at the done event with
accumulated text equal to the exact concatenation of the N fragments in
arrival order, and no input after the done event is read (the outcome is
the same for every suffix rest, which the loop returns untouched).  The CLI
consumer send_message_streaming then returns success = true for every N,
N = 0 included; the cited test harnesses instead gate their verdict on the
accumulated length: test_streaming_with_real_content succeeds exactly when
more than 10 characters accumulated, and test_quick_response exactly when
the stripped text is non-empty, both reporting failure at N = 0. -/
theorem C2_amended_contents_then_done (message : String) (frags : List String)
    (rest : List Line) :
    send_message_streaming message (some "sess")
        (Transport.resp 200 (frags.map contentLine ++ doneLine :: rest))
      = { networkCalls := 1, success := true, fullResponse := concatAll frags,
          malformedWarnings := 0, events := frags.map Ev.content ++ [Ev.done],
          termination := Termination.doneOk }
    ∧ processLines (frags.map contentLine ++ doneLine :: rest) "" 0 []
      = LoopResult.doneAt (concatAll frags) 0 (frags.map Ev.content ++ [Ev.done]) rest
    ∧ test_streaming_verdict (processLines (frags.map contentLine ++ doneLine :: rest) "" 0 [])
      = decide (10 < (concatAll frags).length)
    ∧ test_quick_response_loop (frags.map contentLine ++ doneLine :: rest) ""
      = decide (0 < (pyStrip (concatAll frags)).length) := by
  have hloop : processLines (frags.map contentLine ++ doneLine :: rest) "" 0 []
      = LoopResult.doneAt (concatAll frags) 0 (frags.map Ev.content ++ [Ev.done]) rest := by
    rw [processLines_contents, processLines_done_step]
    simp [String.empty_append]
  have hquick : ∀ acc rest2, test_quick_response_loop (doneLine :: rest2) acc
      = decide (0 < (pyStrip acc).length) := fun _ _ => rfl
  refine ⟨by rw [send_unfold_sess200, hloop]; rfl, hloop, by rw [hloop]; rfl, ?_⟩
  rw [test_quick_response_contents, hquick, String.empty_append]

/-- Claim C3 counterexample: the chat loop of the streamlit viewer has no
branch for events of type error.  On the stream content a, error boom,
content b, done, it keeps reading past the error event, accumulates the
fragment b that follows it, and finishes through the done branch with text
ab: the consumer neither stops at the error event nor reports failure, so
the claim is false for this consumer. -/
theorem C3_counterexample_streamlit_ignores_error :
    streamlitChatLoop
        [contentLine "a", errorLine (JsonVal.str "boom"), contentLine "b", doneLine] ""
      = StreamlitResult.doneBreak "ab" [] ∧ ("ab" : String) ≠ "a" :=
  ⟨rfl, by decide⟩

/-- Claim C3 (amended): in the CLI tester and the streaming tests, an event
of type error stops reading with success false, the payload error field
passed through verbatim, and all content accumulated before the error
preserved in the outcome; the streamlit viewer chat loop instead ignores
events of type error like any unrecognized type and continues reading. -/
theorem C3_amended_error_stops_cli_loop (message : String) (frags : List String)
    (emsg : JsonVal) (rest : List Line) :
    send_message_streaming message (some "sess")
        (Transport.resp 200 (frags.map contentLine ++ errorLine emsg :: rest))
      = { networkCalls := 1, success := false, fullResponse := concatAll frags,
          malformedWarnings := 0,
          events := frags.map Ev.content ++ [Ev.error (some emsg)],
          termination := Termination.remoteError (some emsg) }
    ∧ (∀ acc rest2, streamlitChatLoop (errorLine emsg :: rest2) acc
        = streamlitChatLoop rest2 acc) := by
  have hloop : processLines (frags.map contentLine ++ errorLine emsg :: rest) "" 0 []
      = LoopResult.errorAt (concatAll frags) 0 (frags.map Ev.content ++ [Ev.error (some emsg)])
          (some emsg) rest := by
    rw [processLines_contents, processLines_error_step]
    simp [String.empty_append]
  exact ⟨by rw [send_unfold_sess200, hloop]; rfl, fun acc rest2 => rfl⟩

/-- Claim C4: a prefixed line whose payload fails to parse is skipped and
decoding continues, each such line adding one to the count of
malformed-payload warnings printed; in the concrete scenario of one
malformed line between two content events followed by done, the call
succeeds with the two fragments concatenated in order and exactly one
warning recorded. -/
theorem C4_malformed_skipped_counted (message : String) :
    (∀ rest acc w evs, processLines (Line.data PayloadParse.malformed :: rest) acc w evs
        = processLines rest acc (w + 1) evs)
    ∧ send_message_streaming message (some "sess")
        (Transport.resp 200 [contentLine "a", Line.data PayloadParse.malformed,
          contentLine "b", doneLine])
      = { networkCalls := 1, success := true, fullResponse := "ab", malformedWarnings := 1,
          events := [Ev.content "a", Ev.content "b", Ev.done],
          termination := Termination.doneOk } :=
  ⟨fun _ _ _ _ => rfl, rfl⟩

/-- Claim C5 counterexample: a request with an empty message but a live
session is not rejected: the network call is still issued (networkCalls is
one where the claim requires zero) and the call proceeds to a successful
outcome. -/
theorem C5_counterexample_empty_message_still_calls :
    (send_message_streaming "" (some "sess") (Transport.resp 200 [doneLine])).networkCalls = 1
    ∧ (send_message_streaming "" (some "sess") (Transport.resp 200 [doneLine])).success = true :=
  ⟨rfl, rfl⟩

/-- Claim C5 (amended): a None or empty session id is rejected before any
network call, with zero transport invocations; an empty message is not
checked by the consumer itself and still issues exactly one network call
(the interactive CLI and the streamlit button handler filter empty messages
in the caller, before invoking the consumer). -/
theorem C5_amended_empty_session_rejected (message : String) (t : Transport) :
    send_message_streaming message none t
      = { networkCalls := 0, success := false, fullResponse := "", malformedWarnings := 0,
          events := [], termination := Termination.noActiveSession }
    ∧ send_message_streaming message (some "") t
      = { networkCalls := 0, success := false, fullResponse := "", malformedWarnings := 0,
          events := [], termination := Termination.noActiveSession }
    ∧ (send_message_streaming message (some "sess") t).networkCalls = 1 :=
  ⟨rfl, rfl, send_sess_networkCalls message t⟩

/-- Claim C6: for every response whose status is not a 2xx success status the
body is never decoded, no stream event is produced, and the call fails on
the httpError exit path; when requests.post raises before any bytes are read
the call fails on the connectionFailure exit path, again with no event
produced; both exit paths are distinct from the remoteError path taken for a
protocol-level error event. -/
theorem C6_non2xx_and_connection_failures (message : String) (status : Nat)
    (body : List Line) (h : status < 200 ∨ 300 ≤ status) :
    send_message_streaming message (some "sess") (Transport.resp status body)
      = { networkCalls := 1, success := false, fullResponse := "", malformedWarnings := 0,
          events := [], termination := Termination.httpError status }
    ∧ send_message_streaming message (some "sess") Transport.connFail
      = { networkCalls := 1, success := false, fullResponse := "", malformedWarnings := 0,
          events := [], termination := Termination.connectionFailure }
    ∧ (∀ emsg, Termination.httpError status ≠ Termination.remoteError emsg)
    ∧ (∀ emsg, Termination.connectionFailure ≠ Termination.remoteError emsg) := by
  have hne : status ≠ 200 := by omega
  refine ⟨send_notFalsy_httpError message "sess" rfl status hne body, rfl, ?_, ?_⟩
  · intro emsg h2
    exact Termination.noConfusion h2
  · intro emsg h2
    exact Termination.noConfusion h2

/-- Witness for claim C6 at status 500 with an empty body. -/
theorem C6_witness :
    send_message_streaming "m" (some "sess") (Transport.resp 500 [])
      = { networkCalls := 1, success := false, fullResponse := "", malformedWarnings := 0,
          events := [], termination := Termination.httpError 500 } :=
  (C6_non2xx_and_connection_failures "m" 500 [] (Or.inr (by decide))).1

/-- Claim C7: a non-empty line that does not begin with the recognized
prefix is classified as unhandled and ignored by the loop, as is a blank
line; a content payload without a content field contributes the empty
string to the accumulated text; and a payload whose type value is none of
content, done, error is ignored and decoding continues. -/
theorem C7_line_filtering (jsonLoads : String → Option JsonVal) (line s : String)
    (tv : JsonVal) (rest : List Line) (acc : String) (w : Nat) (evs : List Ev)
    (hne : line.isEmpty = false) (hpre : ("data: ".isPrefixOf line) = false)
    (h1 : jsonEqStr tv "content" = false) (h2 : jsonEqStr tv "done" = false)
    (h3 : jsonEqStr tv "error" = false) :
    classifyLine jsonLoads line = Line.other line
    ∧ processLines (Line.other s :: rest) acc w evs = processLines rest acc w evs
    ∧ processLines (Line.blank :: rest) acc w evs = processLines rest acc w evs
    ∧ processLines (typedLine (JsonVal.str "content") :: rest) acc w evs
        = processLines rest (acc ++ "") w (evs ++ [Ev.content ""])
    ∧ processLines (typedLine tv :: rest) acc w evs = processLines rest acc w evs := by
  refine ⟨?_, rfl, rfl, rfl, ?_⟩
  · simp [classifyLine, hne, hpre]
  · have e : lineAction (typedLine tv)
        = (if jsonEqStr tv "content" then
             match List.lookup "content" [("type", tv)] with
             | none => LineAct.append ""
             | some (JsonVal.str s2) => LineAct.append s2
             | some _ => LineAct.raiseExc
           else if jsonEqStr tv "done" then LineAct.stopDone
           else if jsonEqStr tv "error" then
             LineAct.stopError (List.lookup "error" [("type", tv)])
           else LineAct.skip) := rfl
    have hact : lineAction (typedLine tv) = LineAct.skip := by
      rw [e, h1, h2, h3]
      simp
    simp only [processLines]
    rw [hact]

/-- Witness for claim C7 at the line ping without the prefix and the
unrecognized type value ping. -/
theorem C7_witness :
    classifyLine (fun _ => none) "ping" = Line.other "ping"
    ∧ processLines [Line.other "x"] "" 0 [] = processLines [] "" 0 []
    ∧ processLines [Line.blank] "" 0 [] = processLines [] "" 0 []
    ∧ processLines [typedLine (JsonVal.str "content")] "" 0 []
        = processLines [] ("" ++ "") 0 ([] ++ [Ev.content ""])
    ∧ processLines [typedLine (JsonVal.str "ping")] "" 0 [] = processLines [] "" 0 [] :=
  C7_line_filtering (fun _ => none) "ping" "x" (JsonVal.str "ping") [] "" 0 []
    rfl rfl rfl rfl rfl

/-- Claim C8: a prefixed line whose payload is valid JSON but is not an
object containing a type key raises an uncaught exception in the loop (only
json.JSONDecodeError is caught there): item access on an object without the
key raises KeyError and on a non-object raises TypeError.  The exception
escapes to the outer generic handler, so the whole operation aborts as a
generic failure with success false, whatever lines follow, instead of the
line being skipped like a malformed payload. -/
theorem C8_payload_without_type_key_aborts (message : String)
    (fields : List (String × JsonVal)) (v : JsonVal) (rest : List Line)
    (acc : String) (w : Nat) (evs : List Ev)
    (hlk : List.lookup "type" fields = none) (hv : isObj v = false) :
    processLines (Line.data (PayloadParse.json (JsonVal.obj fields)) :: rest) acc w evs
      = LoopResult.exceptionAt acc w evs rest
    ∧ processLines (Line.data (PayloadParse.json v) :: rest) acc w evs
      = LoopResult.exceptionAt acc w evs rest
    ∧ send_message_streaming message (some "sess")
        (Transport.resp 200 (Line.data (PayloadParse.json (JsonVal.obj [])) :: rest))
      = { networkCalls := 1, success := false, fullResponse := "", malformedWarnings := 0,
          events := [], termination := Termination.loopException } := by
  refine ⟨?_, ?_, rfl⟩
  · have hact : lineAction (Line.data (PayloadParse.json (JsonVal.obj fields)))
        = LineAct.raiseExc := by
      simp only [lineAction, hlk]
    simp only [processLines]
    rw [hact]
  · cases v with
    | obj fs => simp [isObj] at hv
    | null => rfl
    | bool b => rfl
    | num n => rfl
    | str s2 => rfl
    | arr xs => rfl

/-- Witness for claim C8 at the payloads of an empty object and the number
42. -/
theorem C8_witness :
    processLines [Line.data (PayloadParse.json (JsonVal.obj []))] "" 0 []
      = LoopResult.exceptionAt "" 0 [] []
    ∧ processLines [Line.data (PayloadParse.json (JsonVal.num 42))] "" 0 []
      = LoopResult.exceptionAt "" 0 [] []
    ∧ send_message_streaming "m" (some "sess")
        (Transport.resp 200 [Line.data (PayloadParse.json (JsonVal.obj []))])
      = { networkCalls := 1, success := false, fullResponse := "", malformedWarnings := 0,
          events := [], termination := Termination.loopException } :=
  C8_payload_without_type_key_aborts "m" [] (JsonVal.num 42) [] "" 0 [] rfl rfl

/-- Claim C9: the consumer holds no persistent state between invocations:
the method leaves the tester state unchanged, a second call sees exactly the
state a first call saw so it behaves as a fresh call, and two invocations
with a live session issue exactly two network calls. -/
theorem C9_no_state_between_invocations (st : APITester) (message : String)
    (t t2 : Transport) :
    (send_message_streaming_method st message t).2 = st
    ∧ send_message_streaming_method (send_message_streaming_method st message t).2 message t2
        = send_message_streaming_method st message t2
    ∧ (send_message_streaming message (some "sess") t).networkCalls
        + (send_message_streaming message (some "sess") t2).networkCalls = 2 := by
  refine ⟨rfl, rfl, ?_⟩
  rw [send_sess_networkCalls, send_sess_networkCalls]
